import Mathlib

/-!
Verification of the Snowflake-to-DataHub metadata connector.

Shallow embedding of the connector's core pipeline:
filter engine (`main.py` `_should_include_*`), identifier builder
(`datahub_client.py` `_create_*_urn`, `utils.py` `sanitize_identifier` /
`create_urn`), event translator (`datahub_client.py` `ingest_*`), batch
publisher (`datahub_client.py` `_send_metadata_events`), bounded retry
(`utils.py` `retry_with_backoff`), warehouse connector state machine
(`snowflake_connector.py` `connect` / `disconnect`), best-effort secondary
lookups (`snowflake_connector.py` `get_primary_keys` etc.), and the run
orchestrator (`main.py` `extract_and_ingest_metadata`).

External effects (SQL queries, HTTP calls, exceptions raised by
collaborators) are modelled as explicit `Except String _` inputs; wall-clock
values (audit timestamps, run duration) are modelled only as "was assigned"
flags since their numeric values are time-dependent.
-/

/-! ## Configuration (`config.py`)

Only the fields the core pipeline reads are modelled.  `Optional[List[str]]`
filter lists are modelled as `List String`, with `[]` standing for both
`None` and the empty list (the pydantic validator in `config.py` normalises
`[]` to `None`, and Python truthiness treats both as false). -/

structure DataHubConfig where
  timeout : Nat := 30
  max_retries : Nat := 3
  batch_size : Nat := 100
deriving DecidableEq

structure Config where
  platform : String := "snowflake"
  extract_structural_metadata : Bool := true
  extract_access_control : Bool := true
  include_databases : List String := []
  exclude_databases : List String := []
  include_schemas : List String := []
  exclude_schemas : List String := []
  include_tables : List String := []
  exclude_tables : List String := []
  datahub : DataHubConfig := {}

/-! ## Filter engine (`main.py` lines 275-297) -/

/-- `SnowflakeDataHubConnector._should_include_database` (main.py 275-281). -/
def should_include_database (cfg : Config) (database : String) : Bool :=
  if !cfg.include_databases.isEmpty then cfg.include_databases.contains database
  else if !cfg.exclude_databases.isEmpty then !cfg.exclude_databases.contains database
  else true

/-- `SnowflakeDataHubConnector._should_include_schema` (main.py 283-289). -/
def should_include_schema (cfg : Config) (schemaName : String) : Bool :=
  if !cfg.include_schemas.isEmpty then cfg.include_schemas.contains schemaName
  else if !cfg.exclude_schemas.isEmpty then !cfg.exclude_schemas.contains schemaName
  else true

/-- `SnowflakeDataHubConnector._should_include_table` (main.py 291-297). -/
def should_include_table (cfg : Config) (table : String) : Bool :=
  if !cfg.include_tables.isEmpty then cfg.include_tables.contains table
  else if !cfg.exclude_tables.isEmpty then !cfg.exclude_tables.contains table
  else true

/-- Modelled from the spec (section 4.1): the three-branch reference
inclusion policy `shouldInclude(name, includeList, excludeList)`.  Written
from the spec's words, to be compared with the filter functions taken from
the source. -/
def shouldIncludeRef (name : String) (includeList excludeList : List String) : Bool :=
  if !includeList.isEmpty then includeList.contains name
  else if !excludeList.isEmpty then !excludeList.contains name
  else true

/-! ## Data model (`models.py`)

`datetime` values are opaque to every claim; they are modelled as
`Option String` carriers. -/

structure FieldMetadata where
  name : String
  type : String
  nullable : Bool := true
  description : Option String := none
  ordinal_position : Option Nat := none
  default_value : Option String := none
  is_primary_key : Bool := false
  is_foreign_key : Bool := false
deriving DecidableEq

/-- One foreign-key constraint row as produced by
`SnowflakeConnector.get_foreign_keys` (snowflake_connector.py 246-275). -/
structure ForeignKeyRow where
  column_name : String
  referenced_table_schema : String
  referenced_table_name : String
  referenced_column_name : String
  constraint_name : String
deriving DecidableEq

structure SchemaMetadata where
  name : String
  fields : List FieldMetadata := []
  primary_keys : List String := []
  foreign_keys : List ForeignKeyRow := []
deriving DecidableEq

structure DatasetMetadata where
  name : String
  platform : String
  database : String
  schema : String
  table_type : String := "TABLE"
  description : Option String := none
  schema_metadata : Option SchemaMetadata := none
  row_count : Option Int := none
  size_bytes : Option Int := none
  created_at : Option String := none
  last_modified : Option String := none
  owner : Option String := none
  tags : List String := []
  custom_properties : List (String × String) := []
deriving DecidableEq

structure UserMetadata where
  name : String
  email : Option String := none
  display_name : Option String := none
  is_active : Bool := true
  roles : List String := []
  created_at : Option String := none
  last_login : Option String := none
  custom_properties : List (String × String) := []
deriving DecidableEq

structure GroupMetadata where
  name : String
  description : Option String := none
  is_active : Bool := true
  members : List String := []
  created_at : Option String := none
  owner : Option String := none
  custom_properties : List (String × String) := []
deriving DecidableEq

/-! ## Identifier builder (`datahub_client.py` 244-254, `utils.py` 119-139, 225-237) -/

/-- `DataHubClient._create_dataset_urn` (datahub_client.py 244-246):
plain f-string interpolation, no escaping of the components. -/
def create_dataset_urn (platform database schemaName name : String) : String :=
  "urn:li:dataset:(urn:li:dataPlatform:" ++ platform ++ "," ++
    database ++ "." ++ schemaName ++ "." ++ name ++ ",PROD)"

/-- `DataHubClient._create_user_urn` (datahub_client.py 248-250). -/
def create_user_urn (platform name : String) : String :=
  "urn:li:platformUser:(urn:li:dataPlatform:" ++ platform ++ "," ++ name ++ ")"

/-- `DataHubClient._create_group_urn` (datahub_client.py 252-254). -/
def create_group_urn (platform name : String) : String :=
  "urn:li:platformUserGroup:(urn:li:dataPlatform:" ++ platform ++ "," ++ name ++ ")"

/-- `utils.sanitize_identifier` (utils.py 119-139).  The removed characters
are `"` (code 34), the apostrophe (code 39) and `;` (code 59); the validity
check strips `_` and `-` and then requires a non-empty all-alphanumeric
remainder (Python's `str.isalnum` is `False` on the empty string).
A `ValueError` is modelled as `Except.error`. -/
def sanitize_identifier (identifier : String) : Except String String :=
  if identifier.data.isEmpty then Except.ok "" else
  let sanitized := identifier.data.filter fun c =>
    !(c == Char.ofNat 34 || c == Char.ofNat 39 || c == Char.ofNat 59)
  let core := sanitized.filter fun c => !(c == Char.ofNat 95 || c == Char.ofNat 45)
  if !core.isEmpty && core.all Char.isAlphanum then Except.ok (String.mk sanitized)
  else Except.error ("Invalid identifier: " ++ identifier)

/-- `utils.create_urn` (utils.py 225-237): filters out falsy parts,
sanitizes each (propagating the `ValueError`), joins with `.`. -/
def create_urn (platform : String) (parts : List String) : Except String String := do
  let sanitized ← (parts.filter fun p => !p.data.isEmpty).mapM sanitize_identifier
  pure ("urn:li:dataset:(urn:li:dataPlatform:" ++ platform ++ "," ++
    String.intercalate "." sanitized ++ ",PROD)")

/-- A path component that contains neither of the structural delimiter
characters `.` and `,` used by the URN builders. -/
def delim_free (s : String) : Prop := ',' ∉ s.data ∧ '.' ∉ s.data

instance (s : String) : Decidable (delim_free s) := by
  unfold delim_free; infer_instance

/-! ## Event translator (`datahub_client.py` 83-242)

A change event as assembled by `ingest_dataset` / `ingest_user` /
`ingest_group`.  The `auditHeader` (wall-clock timestamp) and the
JSON-serialized `aspect.value` payload are not modelled: no claim concerns
their contents, and the timestamp is time-dependent. -/

structure Event where
  entityType : String
  entityUrn : String
  changeType : String
  aspectName : String
deriving DecidableEq

/-- The change events built by `DataHubClient.ingest_dataset`
(datahub_client.py 96-144): a `datasetProperties` event always, and a
`schemaMetadata` event appended exactly when `dataset.schema_metadata`
is present. -/
def ingest_dataset_events (d : DatasetMetadata) : List Event :=
  let urn := create_dataset_urn d.platform d.database d.schema d.name
  let propsEvent : Event := ⟨"dataset", urn, "UPSERT", "datasetProperties"⟩
  match d.schema_metadata with
  | some _ => [propsEvent, ⟨"dataset", urn, "UPSERT", "schemaMetadata"⟩]
  | none => [propsEvent]

/-- The single change event built by `DataHubClient.ingest_user`
(datahub_client.py 180-192). -/
def ingest_user_events (platform : String) (u : UserMetadata) : List Event :=
  [⟨"platformUser", create_user_urn platform u.name, "UPSERT", "platformUserInfo"⟩]

/-- The single change event built by `DataHubClient.ingest_group`
(datahub_client.py 225-237). -/
def ingest_group_events (platform : String) (g : GroupMetadata) : List Event :=
  [⟨"platformUserGroup", create_group_urn platform g.name, "UPSERT", "platformUserGroupInfo"⟩]

/-! ## Batch publisher (`datahub_client.py` 295-323)

`_send_metadata_events` slices `events[i:i+batch_size]` for
`i = 0, batch_size, 2*batch_size, ...` and posts each slice in order.
The slicing loop is embedded with a fuel argument (`events.length` steps
always suffice when `batch_size > 0`); the value returned is the list of
batches posted, in posting order. -/

def send_batches_go (B : Nat) : Nat → List Event → List (List Event)
  | 0, _ => []
  | _, [] => []
  | fuel + 1, e :: rest =>
    List.take B (e :: rest) :: send_batches_go B fuel (List.drop B (e :: rest))

/-- The sequence of batches `DataHubClient._send_metadata_events` posts for
a given configured batch size, in order. -/
def send_metadata_events (cfg : DataHubConfig) (events : List Event) : List (List Event) :=
  send_batches_go cfg.batch_size events.length events

/-! ## Bounded retry (`utils.py` 50-98)

`retry_with_backoff(max_retries)` runs `for attempt in range(max_retries+1)`,
returning the first success and re-raising the exception of the final
attempt.  The wrapped call's behaviour is a function from the attempt index
to an outcome; the model returns the number of calls actually made together
with the final outcome (sleeping between attempts is not modelled). -/

def retryFrom {α : Type} (f : Nat → Except String α) : Nat → Nat → Nat × Except String α
  | attempt, 0 =>
    -- `attempt == max_retries`: a failure of the last attempt is re-raised
    match f attempt with
    | Except.ok a => (1, Except.ok a)
    | Except.error e => (1, Except.error e)
  | attempt, r + 1 =>
    match f attempt with
    | Except.ok a => (1, Except.ok a)
    | Except.error _ =>
      -- failed attempt with retries remaining: back off and try again
      let rest := retryFrom f (attempt + 1) r
      (rest.1 + 1, rest.2)

/-- `utils.retry_with_backoff`: total attempt budget is `max_retries + 1`. -/
def retry_with_backoff {α : Type} (max_retries : Nat) (f : Nat → Except String α) :
    Nat × Except String α :=
  retryFrom f 0 max_retries

/-- The orchestrator's per-entity ingestion wrappers `_ingest_dataset`,
`_ingest_user`, `_ingest_group` (main.py 260-273): each is decorated with
`@retry_with_backoff(max_retries=3, backoff_factor=2)`.  The connector's
configuration is in scope (`self.config`) but the decorator argument is the
literal `3`; `cfg` is therefore unused here, exactly as in the source. -/
def ingest_with_retry (cfg : Config) (f : Nat → Except String Unit) :
    Nat × Except String Unit :=
  retry_with_backoff 3 f

/-! ## Warehouse connector state (`snowflake_connector.py` 26-104) -/

/-- The mutable connection state of `SnowflakeConnector`: the
`self.connection` reference (handle contents opaque) and the
`self._connected` flag. -/
structure SnowflakeState where
  connection : Option Unit
  connected : Bool
deriving DecidableEq

/-- `SnowflakeConnector.__init__`: `connection = None`, `_connected = False`. -/
def initState : SnowflakeState := ⟨none, false⟩

/-- Possible outcomes of one call to `SnowflakeConnector.connect`
(snowflake_connector.py 32-69): the driver-level `connect` call raises
before any assignment; or the assignments succeed and `_test_connection`
raises; or everything succeeds. -/
inductive ConnectOutcome where
  | failEarly (e : String)
  | failTest (e : String)
  | success
deriving DecidableEq

/-- `SnowflakeConnector.connect`: returns the new state and the exception
propagated to the caller, if any. -/
def connect (s : SnowflakeState) : ConnectOutcome → SnowflakeState × Option String
  | ConnectOutcome.failEarly e => (s, some e)
  | ConnectOutcome.failTest e => (⟨some (), true⟩, some e)
  | ConnectOutcome.success => (⟨some (), true⟩, none)

/-- `SnowflakeConnector.disconnect` (snowflake_connector.py 71-81):
`if self.connection and self._connected:` then `try: close()` — a close
failure (`closeFails`) is caught and only logged — and in the `finally`
block both fields are cleared.  The second component is the exception
propagated to the caller, if any. -/
def disconnect (closeFails : Bool) (s : SnowflakeState) : SnowflakeState × Option String :=
  if s.connection.isSome && s.connected then
    -- `close()` may fail (`closeFails = true`); the `except` clause swallows
    -- it and the `finally` clause clears both fields either way.
    (⟨none, false⟩, none)
  else
    (s, none)

/-- States of `SnowflakeConnector` reachable through its public lifecycle
operations, starting from `__init__`. -/
inductive Reachable : SnowflakeState → Prop where
  | init : Reachable initState
  | connectStep (s : SnowflakeState) (o : ConnectOutcome) :
      Reachable s → Reachable (connect s o).1
  | disconnectStep (s : SnowflakeState) (b : Bool) :
      Reachable s → Reachable (disconnect b s).1

/-! ## Best-effort secondary lookups (`snowflake_connector.py` 219-388)

Each lookup executes a query (outcome supplied as an `Except`) and maps the
rows; the `except` clause returns `[]`.  Row dictionaries are modelled by
the single column each lookup projects (`COLUMN_NAME`, `ROLE`,
`GRANTEE_NAME`), or by `ForeignKeyRow` for foreign keys. -/

/-- `SnowflakeConnector.get_primary_keys` (219-244): rows projected to
`COLUMN_NAME`; any query failure yields `[]`. -/
def get_primary_keys (queryOutcome : Except String (List String)) : List String :=
  match queryOutcome with
  | Except.ok rows => rows
  | Except.error _ => []

/-- `SnowflakeConnector.get_foreign_keys` (246-275): any query failure
yields `[]`. -/
def get_foreign_keys (queryOutcome : Except String (List ForeignKeyRow)) :
    List ForeignKeyRow :=
  match queryOutcome with
  | Except.ok rows => rows
  | Except.error _ => []

/-- `SnowflakeConnector._get_user_roles` (356-371): rows projected to
`ROLE`; any query failure yields `[]`. -/
def get_user_roles (queryOutcome : Except String (List String)) : List String :=
  match queryOutcome with
  | Except.ok rows => rows
  | Except.error _ => []

/-- `SnowflakeConnector._get_role_members` (373-388): rows projected to
`GRANTEE_NAME`; any query failure yields `[]`. -/
def get_role_members (queryOutcome : Except String (List String)) : List String :=
  match queryOutcome with
  | Except.ok rows => rows
  | Except.error _ => []

/-- A principal row from the primary users listing, keyed by `NAME`
(other columns are irrelevant to the roles-attachment loop). -/
structure UserRow where
  name : String
deriving DecidableEq

/-- The roles-attachment loop of `SnowflakeConnector.get_users` (300-301):
`for user in results: user['ROLES'] = self._get_user_roles(user['NAME'])`.
`rolesOutcome` gives the per-user query outcome. -/
def attach_user_roles (userRows : List UserRow)
    (rolesOutcome : String → Except String (List String)) :
    List (UserRow × List String) :=
  userRows.map fun u => (u, get_user_roles (rolesOutcome u.name))

/-- The members-attachment loop of `SnowflakeConnector.get_roles` (338-339). -/
def attach_role_members (roleRows : List UserRow)
    (membersOutcome : String → Except String (List String)) :
    List (UserRow × List String) :=
  roleRows.map fun r => (r, get_role_members (membersOutcome r.name))

/-! ## Run orchestrator (`main.py` 35-120, `models.py` 79-101) -/

/-- `models.IngestionResult`.  `duration` is wall-clock elapsed time; only
the fact that it was assigned at finalization is modelled (`duration_set`). -/
@[ext]
structure IngestionResult where
  status : String := "in_progress"
  duration_set : Bool := false
  datasets_processed : Nat := 0
  datasets_success : Nat := 0
  datasets_failed : Nat := 0
  users_processed : Nat := 0
  users_success : Nat := 0
  users_failed : Nat := 0
  groups_processed : Nat := 0
  groups_success : Nat := 0
  groups_failed : Nat := 0
  errors : List String := []
deriving DecidableEq

/-- One extracted entity as seen by the per-entity ingestion loops: its
name and the outcome of the underlying DataHub client call at each retry
attempt (`Except.ok` = ingested, `Except.error msg` = the exception the
attempt raised). -/
structure Entity where
  name : String
  ingest : Nat → Except String Unit

/-- The collaborator outcomes consumed by one run of
`extract_and_ingest_metadata`: the Snowflake `connect()` call and the three
extraction calls (`_extract_datasets`, `_extract_users`, `_extract_groups`).
An `Except.error` means that call raised. -/
structure ConnectorInput where
  connect : Except String Unit
  datasets : Except String (List Entity)
  users : Except String (List Entity)
  groups : Except String (List Entity)

/-- Outcome of one per-entity ingestion after retry exhaustion. -/
def entity_ok (cfg : Config) (e : Entity) : Bool :=
  match (ingest_with_retry cfg e.ingest).2 with
  | Except.ok _ => true
  | Except.error _ => false

/-- One iteration of the dataset ingestion loop (main.py 59-66):
`try: self._ingest_dataset(dataset); success += 1` /
`except: failed += 1; errors.append(f"Dataset {name}: {e}")`. -/
def step_dataset (cfg : Config) (r : IngestionResult) (e : Entity) : IngestionResult :=
  match (ingest_with_retry cfg e.ingest).2 with
  | Except.ok _ => { r with datasets_success := r.datasets_success + 1 }
  | Except.error msg =>
    { r with datasets_failed := r.datasets_failed + 1,
             errors := r.errors ++ ["Dataset " ++ e.name ++ ": " ++ msg] }

/-- One iteration of the user ingestion loop (main.py 76-83). -/
def step_user (cfg : Config) (r : IngestionResult) (e : Entity) : IngestionResult :=
  match (ingest_with_retry cfg e.ingest).2 with
  | Except.ok _ => { r with users_success := r.users_success + 1 }
  | Except.error msg =>
    { r with users_failed := r.users_failed + 1,
             errors := r.errors ++ ["User " ++ e.name ++ ": " ++ msg] }

/-- One iteration of the group ingestion loop (main.py 89-96). -/
def step_group (cfg : Config) (r : IngestionResult) (e : Entity) : IngestionResult :=
  match (ingest_with_retry cfg e.ingest).2 with
  | Except.ok _ => { r with groups_success := r.groups_success + 1 }
  | Except.error msg =>
    { r with groups_failed := r.groups_failed + 1,
             errors := r.errors ++ ["Group " ++ e.name ++ ": " ++ msg] }

/-- The dataset ingestion `for` loop (main.py 59-66); per-entity exceptions
are caught inside the loop body, so the loop itself never raises. -/
def ingest_datasets_loop (cfg : Config) : List Entity → IngestionResult → IngestionResult
  | [], r => r
  | e :: es, r => ingest_datasets_loop cfg es (step_dataset cfg r e)

/-- The user ingestion `for` loop (main.py 76-83). -/
def ingest_users_loop (cfg : Config) : List Entity → IngestionResult → IngestionResult
  | [], r => r
  | e :: es, r => ingest_users_loop cfg es (step_user cfg r e)

/-- The group ingestion `for` loop (main.py 89-96). -/
def ingest_groups_loop (cfg : Config) : List Entity → IngestionResult → IngestionResult
  | [], r => r
  | e :: es, r => ingest_groups_loop cfg es (step_group cfg r e)

/-- The structural-metadata phase (main.py 53-66): if enabled, extract the
datasets (an extraction failure propagates as the second component), record
`datasets_processed = len(datasets)` and run the ingestion loop. -/
def structural_phase (cfg : Config) (inp : ConnectorInput) (r0 : IngestionResult) :
    IngestionResult × Option String :=
  if cfg.extract_structural_metadata then
    match inp.datasets with
    | Except.error e => (r0, some e)
    | Except.ok ds =>
      (ingest_datasets_loop cfg ds { r0 with datasets_processed := ds.length }, none)
  else (r0, none)

/-- The access-control phase (main.py 69-96): users then groups, each with
`processed = len(...)` recorded before its ingestion loop; an extraction
failure propagates with the result as mutated so far. -/
def access_phase (cfg : Config) (inp : ConnectorInput) (r1 : IngestionResult) :
    IngestionResult × Option String :=
  if cfg.extract_access_control then
    match inp.users with
    | Except.error e => (r1, some e)
    | Except.ok us =>
      let r2 := ingest_users_loop cfg us { r1 with users_processed := us.length }
      match inp.groups with
      | Except.error e => (r2, some e)
      | Except.ok gs =>
        (ingest_groups_loop cfg gs { r2 with groups_processed := gs.length }, none)
  else (r1, none)

/-- The `try` block of `extract_and_ingest_metadata` (main.py 45-104) up to
but excluding the final `status = "completed"` assignment: connect, then the
two phases.  The second component is the exception that escaped the block,
if any; the first is the result object as mutated when the block ended. -/
def run_body (cfg : Config) (inp : ConnectorInput) (r0 : IngestionResult) :
    IngestionResult × Option String :=
  match inp.connect with
  | Except.error e => (r0, some e)
  | Except.ok _ =>
    match structural_phase cfg inp r0 with
    | (r, some e) => (r, some e)
    | (r1, none) => access_phase cfg inp r1

/-- What one call of `extract_and_ingest_metadata` produces: the finalized
result object, whether the exception was re-raised to the caller, and
whether the `finally` block attempted `disconnect`. -/
structure RunOutcome where
  result : IngestionResult
  reraised : Bool
  disconnect_attempted : Bool
deriving DecidableEq

/-- `SnowflakeDataHubConnector.extract_and_ingest_metadata` (main.py 35-120):
on success `status = "completed"`, duration assigned; on any exception from
the `try` block `status = "failed"`, duration assigned, one
`"Critical error: ..."` string appended, and the exception re-raised; the
`finally` clause attempts `disconnect` on every path. -/
def extract_and_ingest_metadata (cfg : Config) (inp : ConnectorInput) : RunOutcome :=
  match run_body cfg inp {} with
  | (r, none) =>
    { result := { r with status := "completed", duration_set := true },
      reraised := false, disconnect_attempted := true }
  | (r, some e) =>
    { result := { r with status := "failed", duration_set := true,
                         errors := r.errors ++ ["Critical error: " ++ e] },
      reraised := true, disconnect_attempted := true }

/-- The error strings the ingestion loop for one entity class appends, in
order: one per permanently failing entity, `label + name + ": " + message`. -/
def class_errors (cfg : Config) (label : String) (es : List Entity) : List String :=
  es.filterMap fun e =>
    match (ingest_with_retry cfg e.ingest).2 with
    | Except.ok _ => none
    | Except.error msg => some (label ++ e.name ++ ": " ++ msg)

/-- Concrete collaborator outcomes used to exercise the orchestrator:
two datasets (the second permanently failing), one user, no groups. -/
def sample_input : ConnectorInput where
  connect := Except.ok ()
  datasets := Except.ok
    [⟨"T1", fun _ => Except.ok ()⟩, ⟨"T2", fun _ => Except.error "rejected"⟩]
  users := Except.ok [⟨"U1", fun _ => Except.ok ()⟩]
  groups := Except.ok []

/-- Concrete collaborator outcomes where the user-extraction query fails
after a successful (empty) structural phase. -/
def failing_input : ConnectorInput where
  connect := Except.ok ()
  datasets := Except.ok []
  users := Except.error "ACCOUNT_USAGE query failed"
  groups := Except.ok []

/-! ## Theorems -/

/-- C1: for every name and every configured include/exclude pair, the
inclusion decision of each of the three filter methods equals the
three-branch reference policy of the spec (include list non-empty: member;
else exclude list non-empty: non-member; else include), independently at the
database, schema and table level. -/
theorem C1_filter_precedence (cfg : Config) (name : String) :
    should_include_database cfg name =
      shouldIncludeRef name cfg.include_databases cfg.exclude_databases ∧
    should_include_schema cfg name =
      shouldIncludeRef name cfg.include_schemas cfg.exclude_schemas ∧
    should_include_table cfg name =
      shouldIncludeRef name cfg.include_tables cfg.exclude_tables :=
  ⟨rfl, rfl, rfl⟩

/-- C8: translating one dataset yields a `datasetProperties` event always
and a `schemaMetadata` event exactly when the nested schema is present
(so 1-2 events, 2 iff present); one user and one group each yield exactly
one event. -/
theorem C8_translation_event_counts (d : DatasetMetadata) (platform : String)
    (u : UserMetadata) (g : GroupMetadata) :
    ((ingest_dataset_events d).map Event.aspectName =
      if d.schema_metadata.isSome then ["datasetProperties", "schemaMetadata"]
      else ["datasetProperties"]) ∧
    (1 ≤ (ingest_dataset_events d).length ∧ (ingest_dataset_events d).length ≤ 2) ∧
    ((ingest_dataset_events d).length = 2 ↔ d.schema_metadata.isSome) ∧
    (ingest_user_events platform u).length = 1 ∧
    (ingest_group_events platform g).length = 1 := by
  cases h : d.schema_metadata <;>
    simp [ingest_dataset_events, ingest_user_events, ingest_group_events, h]

/-- C9: every best-effort secondary lookup returns `[]` on a failed query
instead of propagating the error, and the per-principal attachment loops
process every row: each input row appears, in order, paired with its own
independently defaulted lookup result. -/
theorem C9_best_effort_lookups (e : String) (rows : List UserRow)
    (rolesOutcome membersOutcome : String → Except String (List String)) :
    get_primary_keys (Except.error e) = [] ∧
    get_foreign_keys (Except.error e) = [] ∧
    get_user_roles (Except.error e) = [] ∧
    get_role_members (Except.error e) = [] ∧
    (attach_user_roles rows rolesOutcome).map Prod.fst = rows ∧
    (attach_user_roles rows rolesOutcome).map Prod.snd =
      rows.map (fun u => get_user_roles (rolesOutcome u.name)) ∧
    (attach_role_members rows membersOutcome).map Prod.fst = rows ∧
    (attach_role_members rows membersOutcome).map Prod.snd =
      rows.map (fun r => get_role_members (membersOutcome r.name)) := by
  refine ⟨rfl, rfl, rfl, rfl, ?_, ?_, ?_, ?_⟩ <;>
    simp [attach_user_roles, attach_role_members, List.map_map, Function.comp_def]

/-- Splitting a character list at a separator is unambiguous when neither
left part contains the separator. -/
theorem append_sep_inj {sep : Char} :
    ∀ (a : List Char) {c b d : List Char}, sep ∉ a → sep ∉ c →
      a ++ sep :: b = c ++ sep :: d → a = c ∧ b = d := by
  intro a
  induction a with
  | nil =>
    intro c b d _ hc h
    cases c with
    | nil => simpa using h
    | cons x xs =>
      simp only [List.nil_append, List.cons_append, List.cons.injEq] at h
      exact absurd (h.1 ▸ List.mem_cons_self x xs) hc
  | cons y ys ih =>
    intro c b d ha hc h
    cases c with
    | nil =>
      simp only [List.nil_append, List.cons_append, List.cons.injEq] at h
      exact absurd (h.1 ▸ List.mem_cons_self y ys) ha
    | cons x xs =>
      simp only [List.cons_append, List.cons.injEq] at h
      obtain ⟨h1, h2⟩ := h
      have ha' : sep ∉ ys := fun hm => ha (List.mem_cons_of_mem _ hm)
      have hc' : sep ∉ xs := fun hm => hc (List.mem_cons_of_mem _ hm)
      obtain ⟨e1, e2⟩ := ih ha' hc' h2
      exact ⟨by rw [h1, e1], e2⟩

/-- The character content of a dataset URN, right-nested around its
structural delimiters. -/
theorem create_dataset_urn_data (p db sc n : String) :
    (create_dataset_urn p db sc n).data =
      "urn:li:dataset:(urn:li:dataPlatform:".data ++
        (p.data ++ ',' :: (db.data ++ '.' :: (sc.data ++ '.' ::
          (n.data ++ ",PROD)".data)))) := by
  have hc : ("," : String).data = [','] := rfl
  have hd : ("." : String).data = ['.'] := rfl
  simp [create_dataset_urn, String.data_append, hc, hd]

/-- The character content of a platform-user URN. -/
theorem create_user_urn_data (p n : String) :
    (create_user_urn p n).data =
      "urn:li:platformUser:(urn:li:dataPlatform:".data ++
        (p.data ++ ',' :: (n.data ++ ")".data)) := by
  have hc : ("," : String).data = [','] := rfl
  simp [create_user_urn, String.data_append, hc]

/-- The character content of a platform-user-group URN. -/
theorem create_group_urn_data (p n : String) :
    (create_group_urn p n).data =
      "urn:li:platformUserGroup:(urn:li:dataPlatform:".data ++
        (p.data ++ ',' :: (n.data ++ ")".data)) := by
  have hc : ("," : String).data = [','] := rfl
  simp [create_group_urn, String.data_append, hc]

/-- `sanitize_identifier` rejects (raises `ValueError` on) any component
containing the structural delimiter `.`: the dot survives both strip
passes and fails the alphanumeric check. -/
theorem sanitize_identifier_dot_error (s : String) (h : '.' ∈ s.data) :
    sanitize_identifier s = Except.error ("Invalid identifier: " ++ s) := by
  have hne : s.data.isEmpty = false := by
    cases hd : s.data with
    | nil => rw [hd] at h; simp at h
    | cons x xs => rfl
  have h1 : '.' ∈ s.data.filter fun c =>
      !(c == Char.ofNat 34 || c == Char.ofNat 39 || c == Char.ofNat 59) := by
    rw [List.mem_filter]
    exact ⟨h, by decide⟩
  have h2 : '.' ∈ (s.data.filter fun c =>
      !(c == Char.ofNat 34 || c == Char.ofNat 39 || c == Char.ofNat 59)).filter
        fun c => !(c == Char.ofNat 95 || c == Char.ofNat 45) := by
    rw [List.mem_filter]
    exact ⟨h1, by decide⟩
  have hall : ((s.data.filter fun c =>
      !(c == Char.ofNat 34 || c == Char.ofNat 39 || c == Char.ofNat 59)).filter
        fun c => !(c == Char.ofNat 95 || c == Char.ofNat 45)).all Char.isAlphanum = false := by
    cases hb : ((s.data.filter fun c =>
        !(c == Char.ofNat 34 || c == Char.ofNat 39 || c == Char.ofNat 59)).filter
          fun c => !(c == Char.ofNat 95 || c == Char.ofNat 45)).all Char.isAlphanum with
    | false => rfl
    | true => exact absurd (List.all_eq_true.mp hb '.' h2) (by decide)
  have hcond : (!((s.data.filter fun c =>
      !(c == Char.ofNat 34 || c == Char.ofNat 39 || c == Char.ofNat 59)).filter
        fun c => !(c == Char.ofNat 95 || c == Char.ofNat 45)).isEmpty &&
      ((s.data.filter fun c =>
        !(c == Char.ofNat 34 || c == Char.ofNat 39 || c == Char.ofNat 59)).filter
          fun c => !(c == Char.ofNat 95 || c == Char.ofNat 45)).all Char.isAlphanum) = false := by
    rw [hall, Bool.and_false]
  simp only [sanitize_identifier]
  rw [hne, hcond]
  simp

/-- C2 counterexample: `_create_dataset_urn` performs no escaping, so the
two distinct (platform, database, schema, name) tuples
`("snowflake","A.B","C","D")` and `("snowflake","A","B.C","D")` produce the
identical dataset URN. -/
theorem C2_counterexample :
    create_dataset_urn "snowflake" "A.B" "C" "D" =
      create_dataset_urn "snowflake" "A" "B.C" "D" ∧
    ¬(("A.B" : String) = "A" ∧ ("C" : String) = "B.C") :=
  ⟨rfl, by decide⟩

/-- C2 (amended): the URN builders are plain concatenation with `,` and `.`
as structural delimiters and perform no escaping, so injectivity holds only
for delimiter-free components: two dataset URNs built from components free
of `.` and `,` are equal only if all four components agree, two
platform-user URNs likewise, two platform-user-group URNs likewise, and
`utils.sanitize_identifier` (used by `utils.create_urn`) validates rather
than escapes, rejecting any component containing the `.` delimiter. -/
theorem C2_urn_injective_when_delim_free
    (p1 db1 sc1 n1 p2 db2 sc2 n2 q1 m1 q2 m2 g1 k1 g2 k2 : String)
    (hp1 : delim_free p1) (hdb1 : delim_free db1) (hsc1 : delim_free sc1)
    (hn1 : delim_free n1) (hp2 : delim_free p2) (hdb2 : delim_free db2)
    (hsc2 : delim_free sc2) (hn2 : delim_free n2)
    (hq1 : delim_free q1) (hq2 : delim_free q2)
    (hg1 : delim_free g1) (hg2 : delim_free g2)
    (hds : create_dataset_urn p1 db1 sc1 n1 = create_dataset_urn p2 db2 sc2 n2)
    (hus : create_user_urn q1 m1 = create_user_urn q2 m2)
    (hgs : create_group_urn g1 k1 = create_group_urn g2 k2) :
    (p1 = p2 ∧ db1 = db2 ∧ sc1 = sc2 ∧ n1 = n2) ∧ (q1 = q2 ∧ m1 = m2) ∧
    (g1 = g2 ∧ k1 = k2) ∧
    (∀ s : String, '.' ∈ s.data →
      sanitize_identifier s = Except.error ("Invalid identifier: " ++ s)) := by
  refine ⟨?_, ?_, ?_, fun s hs => sanitize_identifier_dot_error s hs⟩
  · have hd := congrArg String.data hds
    rw [create_dataset_urn_data, create_dataset_urn_data] at hd
    have hd1 := List.append_cancel_left hd
    obtain ⟨hp, hrest⟩ := append_sep_inj p1.data hp1.1 hp2.1 hd1
    obtain ⟨hdb, hrest2⟩ := append_sep_inj db1.data hdb1.2 hdb2.2 hrest
    obtain ⟨hsc, hrest3⟩ := append_sep_inj sc1.data hsc1.2 hsc2.2 hrest2
    have hn := List.append_cancel_right hrest3
    exact ⟨String.ext hp, String.ext hdb, String.ext hsc, String.ext hn⟩
  · have hd := congrArg String.data hus
    rw [create_user_urn_data, create_user_urn_data] at hd
    have hd1 := List.append_cancel_left hd
    obtain ⟨hq, hrest⟩ := append_sep_inj q1.data hq1.1 hq2.1 hd1
    have hm := List.append_cancel_right hrest
    exact ⟨String.ext hq, String.ext hm⟩
  · have hd := congrArg String.data hgs
    rw [create_group_urn_data, create_group_urn_data] at hd
    have hd1 := List.append_cancel_left hd
    obtain ⟨hg, hrest⟩ := append_sep_inj g1.data hg1.1 hg2.1 hd1
    have hk := List.append_cancel_right hrest
    exact ⟨String.ext hg, String.ext hk⟩

/-- C2 witness: the amended injectivity theorem applied at concrete
delimiter-free components. -/
theorem C2_witness :
    delim_free "snowflake" ∧
    ((("snowflake" : String) = "snowflake" ∧ ("DB1" : String) = "DB1" ∧
      ("SCH" : String) = "SCH" ∧ ("T1" : String) = "T1") ∧
     (("snowflake" : String) = "snowflake" ∧ ("ALICE" : String) = "ALICE") ∧
     (("snowflake" : String) = "snowflake" ∧ ("ANALYSTS" : String) = "ANALYSTS") ∧
     (∀ s : String, '.' ∈ s.data →
       sanitize_identifier s = Except.error ("Invalid identifier: " ++ s))) :=
  ⟨by decide,
   C2_urn_injective_when_delim_free "snowflake" "DB1" "SCH" "T1"
     "snowflake" "DB1" "SCH" "T1" "snowflake" "ALICE" "snowflake" "ALICE"
     "snowflake" "ANALYSTS" "snowflake" "ANALYSTS"
     (by decide) (by decide) (by decide) (by decide) (by decide) (by decide)
     (by decide) (by decide) (by decide) (by decide) (by decide) (by decide)
     rfl rfl rfl⟩

/-- If every attempt fails, the retry loop makes exactly `remaining + 1`
calls starting from any attempt index, and ends in the last error. -/
theorem retryFrom_all_fail {α : Type} (f : Nat → Except String α)
    (hfail : ∀ k, ∃ e, f k = Except.error e) :
    ∀ remaining attempt, (retryFrom f attempt remaining).1 = remaining + 1 ∧
      ∃ e, (retryFrom f attempt remaining).2 = Except.error e := by
  intro remaining
  induction remaining with
  | zero =>
    intro attempt
    obtain ⟨e, he⟩ := hfail attempt
    refine ⟨?_, e, ?_⟩ <;> simp [retryFrom, he]
  | succ r ih =>
    intro attempt
    obtain ⟨e, he⟩ := hfail attempt
    obtain ⟨h1, e', h2⟩ := ih (attempt + 1)
    refine ⟨?_, e', ?_⟩ <;> simp [retryFrom, he, h1, h2]

/-- C5 counterexample: the per-entity retry ceiling is not taken from
configuration.  With `datahub.max_retries` configured to `0`, an
always-failing per-entity ingestion is still attempted 4 times (the
orchestrator's decorators hardcode `max_retries=3`), not `0 + 1 = 1`. -/
theorem C5_counterexample :
    (ingest_with_retry { datahub := { max_retries := 0 } }
      (fun _ => Except.error "boom")).1 = 4 ∧
    ({ datahub := { max_retries := 0 } } : Config).datahub.max_retries + 1 = 1 ∧
    (4 : Nat) ≠ 1 := by
  refine ⟨rfl, rfl, by decide⟩

/-- C5 (amended): a per-entity ingestion that fails on every attempt is
retried exactly `max_retries` additional times — `max_retries + 1` attempts
in total, ending in an error — where `max_retries` is the retry decorator's
parameter; the orchestrator's per-entity wrappers hardcode that parameter to
`3` (4 attempts) independently of the configuration, and the failed entity
is then counted as failed by the ingestion loop. -/
theorem C5_retry_ceiling (m : Nat) (f : Nat → Except String Unit)
    (hfail : ∀ k, ∃ e, f k = Except.error e) :
    (retry_with_backoff m f).1 = m + 1 ∧
    (∃ e, (retry_with_backoff m f).2 = Except.error e) ∧
    (∀ cfg : Config, (ingest_with_retry cfg f).1 = 4) ∧
    (∀ (cfg : Config) (r : IngestionResult) (name : String),
      (step_dataset cfg r ⟨name, f⟩).datasets_failed = r.datasets_failed + 1) := by
  obtain ⟨h1, h2⟩ := retryFrom_all_fail f hfail m 0
  refine ⟨h1, h2, ?_, ?_⟩
  · intro cfg
    exact (retryFrom_all_fail f hfail 3 0).1
  · intro cfg r name
    obtain ⟨e, he⟩ := (retryFrom_all_fail f hfail 3 0).2
    simp [step_dataset, ingest_with_retry, retry_with_backoff, he]

/-- C5 witness: the retry ceiling theorem applied at `max_retries = 2` and
an ingestion failing on every attempt. -/
theorem C5_witness :
    (retry_with_backoff 2 (fun _ : Nat => (Except.error "x" : Except String Unit))).1 = 2 + 1 :=
  (C5_retry_ceiling 2 (fun _ => Except.error "x") (fun _ => ⟨"x", rfl⟩)).1

/-- Ceiling-division step for the batch count recursion. -/
theorem ceil_div_step (N B : Nat) (hB : 0 < B) (hN : 0 < N) :
    (N - B + B - 1) / B + 1 = (N + B - 1) / B := by
  have h1 : N + B - 1 = (N - 1) + B := by omega
  rw [h1, Nat.add_div_right _ hB]
  rcases le_or_lt N B with h | h
  · have h2 : N - B + B - 1 = B - 1 := by omega
    rw [h2, Nat.div_eq_of_lt (by omega), Nat.div_eq_of_lt (by omega)]
  · have h2 : N - B + B - 1 = N - 1 := by omega
    rw [h2]

/-- Concatenating the batches gives back the original event list, in order:
every event lands in exactly one batch, at its original position. -/
theorem send_batches_go_join (B : Nat) (hB : 0 < B) :
    ∀ (fuel : Nat) (l : List Event), l.length ≤ fuel →
      (send_batches_go B fuel l).flatten = l := by
  intro fuel
  induction fuel with
  | zero =>
    intro l hl
    cases l with
    | nil => simp [send_batches_go]
    | cons e rest => simp at hl
  | succ fuel ih =>
    intro l hl
    cases l with
    | nil => simp [send_batches_go]
    | cons e rest =>
      simp only [List.length_cons] at hl
      have hlen : (List.drop B (e :: rest)).length ≤ fuel := by
        simp only [List.length_drop, List.length_cons]; omega
      simp only [send_batches_go, List.flatten_cons]
      rw [ih (List.drop B (e :: rest)) hlen]
      exact List.take_append_drop B (e :: rest)

/-- The number of batches is `ceil(N / B)`, i.e. `(N + B - 1) / B`. -/
theorem send_batches_go_count (B : Nat) (hB : 0 < B) :
    ∀ (fuel : Nat) (l : List Event), l.length ≤ fuel →
      (send_batches_go B fuel l).length = (l.length + B - 1) / B := by
  intro fuel
  induction fuel with
  | zero =>
    intro l hl
    cases l with
    | nil => simp [send_batches_go, Nat.div_eq_of_lt (by omega : B - 1 < B)]
    | cons e rest => simp at hl
  | succ fuel ih =>
    intro l hl
    cases l with
    | nil => simp [send_batches_go, Nat.div_eq_of_lt (by omega : B - 1 < B)]
    | cons e rest =>
      simp only [List.length_cons] at hl
      have hlen : (List.drop B (e :: rest)).length ≤ fuel := by
        simp only [List.length_drop, List.length_cons]; omega
      simp only [send_batches_go, List.length_cons]
      rw [ih (List.drop B (e :: rest)) hlen]
      simp only [List.length_drop, List.length_cons]
      exact ceil_div_step (rest.length + 1) B hB (by omega)

/-- Every batch the loop emits has at most `B` events. -/
theorem send_batches_go_sizes (B : Nat) :
    ∀ (fuel : Nat) (l : List Event) (b : List Event),
      b ∈ send_batches_go B fuel l → b.length ≤ B := by
  intro fuel
  induction fuel with
  | zero =>
    intro l b hb
    cases l <;> simp [send_batches_go] at hb
  | succ fuel ih =>
    intro l b hb
    cases l with
    | nil => simp [send_batches_go] at hb
    | cons e rest =>
      simp only [send_batches_go, List.mem_cons] at hb
      rcases hb with hb | hb
      · subst hb; simp [List.length_take]
      · exact ih _ _ hb

/-- C6: for a configured batch size `B > 0`, `_send_metadata_events`
partitions `N` events into `ceil(N/B) = (N+B-1)/B` contiguous batches sent
in order, each of size at most `B`, and concatenating the batches restores
the original event list (every event in exactly one batch, in original
position order). -/
theorem C6_batch_partitioning (cfg : DataHubConfig) (events : List Event)
    (hB : 0 < cfg.batch_size) :
    (send_metadata_events cfg events).length =
      (events.length + cfg.batch_size - 1) / cfg.batch_size ∧
    (∀ b ∈ send_metadata_events cfg events, b.length ≤ cfg.batch_size) ∧
    (send_metadata_events cfg events).flatten = events := by
  refine ⟨?_, ?_, ?_⟩
  · exact send_batches_go_count cfg.batch_size hB events.length events le_rfl
  · intro b hb
    exact send_batches_go_sizes cfg.batch_size events.length events b hb
  · exact send_batches_go_join cfg.batch_size hB events.length events le_rfl

/-- C6 witness: the partitioning theorem applied to three concrete events
with batch size 2. -/
theorem C6_witness :
    0 < ({ batch_size := 2 } : DataHubConfig).batch_size ∧
    ((send_metadata_events { batch_size := 2 }
        [⟨"dataset", "u1", "UPSERT", "datasetProperties"⟩,
         ⟨"dataset", "u1", "UPSERT", "schemaMetadata"⟩,
         ⟨"platformUser", "u2", "UPSERT", "platformUserInfo"⟩]).length =
      (([⟨"dataset", "u1", "UPSERT", "datasetProperties"⟩,
         ⟨"dataset", "u1", "UPSERT", "schemaMetadata"⟩,
         ⟨"platformUser", "u2", "UPSERT", "platformUserInfo"⟩] : List Event).length +
        ({ batch_size := 2 } : DataHubConfig).batch_size - 1) /
        ({ batch_size := 2 } : DataHubConfig).batch_size ∧
     (∀ b ∈ send_metadata_events { batch_size := 2 }
        [⟨"dataset", "u1", "UPSERT", "datasetProperties"⟩,
         ⟨"dataset", "u1", "UPSERT", "schemaMetadata"⟩,
         ⟨"platformUser", "u2", "UPSERT", "platformUserInfo"⟩],
        b.length ≤ ({ batch_size := 2 } : DataHubConfig).batch_size) ∧
     (send_metadata_events { batch_size := 2 }
        [⟨"dataset", "u1", "UPSERT", "datasetProperties"⟩,
         ⟨"dataset", "u1", "UPSERT", "schemaMetadata"⟩,
         ⟨"platformUser", "u2", "UPSERT", "platformUserInfo"⟩]).flatten =
       [⟨"dataset", "u1", "UPSERT", "datasetProperties"⟩,
        ⟨"dataset", "u1", "UPSERT", "schemaMetadata"⟩,
        ⟨"platformUser", "u2", "UPSERT", "platformUserInfo"⟩]) :=
  ⟨by decide, C6_batch_partitioning { batch_size := 2 } _ (by decide)⟩

/-- Successes and failures of one entity class partition its entities. -/
theorem countP_ok_total (cfg : Config) (es : List Entity) :
    es.countP (fun e => entity_ok cfg e) + es.countP (fun e => !entity_ok cfg e) =
      es.length := by
  induction es with
  | nil => simp
  | cons e es ih =>
    simp only [List.countP_cons, List.length_cons]
    cases entity_ok cfg e <;> simp <;> omega

/-- What the dataset ingestion loop does to the running result: bump the
success counter once per succeeding entity, the failure counter once per
permanently failing entity, and append that class's error strings — nothing
else changes, and the loop never raises. -/
theorem ingest_datasets_loop_eq (cfg : Config) :
    ∀ (ds : List Entity) (r : IngestionResult),
      ingest_datasets_loop cfg ds r =
        { r with
          datasets_success := r.datasets_success + ds.countP (fun e => entity_ok cfg e),
          datasets_failed := r.datasets_failed + ds.countP (fun e => !entity_ok cfg e),
          errors := r.errors ++ class_errors cfg "Dataset " ds } := by
  intro ds
  induction ds with
  | nil => intro r; simp [ingest_datasets_loop, class_errors]
  | cons e es ih =>
    intro r
    rw [ingest_datasets_loop, ih]
    cases h : (ingest_with_retry cfg e.ingest).2 with
    | ok a =>
      ext <;>
        simp [step_dataset, h, entity_ok, class_errors, List.countP_cons,
          List.filterMap_cons] <;> omega
    | error msg =>
      ext <;>
        simp [step_dataset, h, entity_ok, class_errors, List.countP_cons,
          List.filterMap_cons] <;> omega

/-- Analogue of `ingest_datasets_loop_eq` for the user loop. -/
theorem ingest_users_loop_eq (cfg : Config) :
    ∀ (us : List Entity) (r : IngestionResult),
      ingest_users_loop cfg us r =
        { r with
          users_success := r.users_success + us.countP (fun e => entity_ok cfg e),
          users_failed := r.users_failed + us.countP (fun e => !entity_ok cfg e),
          errors := r.errors ++ class_errors cfg "User " us } := by
  intro us
  induction us with
  | nil => intro r; simp [ingest_users_loop, class_errors]
  | cons e es ih =>
    intro r
    rw [ingest_users_loop, ih]
    cases h : (ingest_with_retry cfg e.ingest).2 with
    | ok a =>
      ext <;>
        simp [step_user, h, entity_ok, class_errors, List.countP_cons,
          List.filterMap_cons] <;> omega
    | error msg =>
      ext <;>
        simp [step_user, h, entity_ok, class_errors, List.countP_cons,
          List.filterMap_cons] <;> omega

/-- Analogue of `ingest_datasets_loop_eq` for the group loop. -/
theorem ingest_groups_loop_eq (cfg : Config) :
    ∀ (gs : List Entity) (r : IngestionResult),
      ingest_groups_loop cfg gs r =
        { r with
          groups_success := r.groups_success + gs.countP (fun e => entity_ok cfg e),
          groups_failed := r.groups_failed + gs.countP (fun e => !entity_ok cfg e),
          errors := r.errors ++ class_errors cfg "Group " gs } := by
  intro gs
  induction gs with
  | nil => intro r; simp [ingest_groups_loop, class_errors]
  | cons e es ih =>
    intro r
    rw [ingest_groups_loop, ih]
    cases h : (ingest_with_retry cfg e.ingest).2 with
    | ok a =>
      ext <;>
        simp [step_group, h, entity_ok, class_errors, List.countP_cons,
          List.filterMap_cons] <;> omega
    | error msg =>
      ext <;>
        simp [step_group, h, entity_ok, class_errors, List.countP_cons,
          List.filterMap_cons] <;> omega

/-- One error string is appended per permanently failing entity. -/
theorem class_errors_length (cfg : Config) (label : String) (es : List Entity) :
    (class_errors cfg label es).length = es.countP (fun e => !entity_ok cfg e) := by
  induction es with
  | nil => simp [class_errors]
  | cons e es ih =>
    simp only [class_errors] at ih ⊢
    rw [List.filterMap_cons, List.countP_cons]
    cases h : (ingest_with_retry cfg e.ingest).2 with
    | ok a => simp [h, entity_ok, ih]
    | error msg => simp [h, entity_ok, ih]

/-- The structural phase leaves the user/group statistics untouched and,
started from zeroed dataset counters, leaves `processed = success + failed`
for datasets in every branch (skipped, extraction failure, or full loop). -/
theorem structural_phase_spec (cfg : Config) (inp : ConnectorInput)
    (r0 : IngestionResult)
    (hdp : r0.datasets_processed = 0) (hds : r0.datasets_success = 0)
    (hdf : r0.datasets_failed = 0) :
    (structural_phase cfg inp r0).1.users_processed = r0.users_processed ∧
    (structural_phase cfg inp r0).1.users_success = r0.users_success ∧
    (structural_phase cfg inp r0).1.users_failed = r0.users_failed ∧
    (structural_phase cfg inp r0).1.groups_processed = r0.groups_processed ∧
    (structural_phase cfg inp r0).1.groups_success = r0.groups_success ∧
    (structural_phase cfg inp r0).1.groups_failed = r0.groups_failed ∧
    (structural_phase cfg inp r0).1.datasets_processed =
      (structural_phase cfg inp r0).1.datasets_success +
      (structural_phase cfg inp r0).1.datasets_failed := by
  cases hb : cfg.extract_structural_metadata with
  | false => simp [structural_phase, hb, hdp, hds, hdf]
  | true =>
    cases hd : inp.datasets with
    | error e => simp [structural_phase, hb, hd, hdp, hds, hdf]
    | ok ds =>
      have hcount := countP_ok_total cfg ds
      simp [structural_phase, hb, hd, ingest_datasets_loop_eq, hdp, hds, hdf]
      omega

/-- The access phase preserves the dataset statistics and, started from
zeroed user/group counters, leaves `processed = success + failed` for users
and groups in every branch. -/
theorem access_phase_spec (cfg : Config) (inp : ConnectorInput)
    (r1 : IngestionResult)
    (hup : r1.users_processed = 0) (hus : r1.users_success = 0)
    (huf : r1.users_failed = 0) (hgp : r1.groups_processed = 0)
    (hgs : r1.groups_success = 0) (hgf : r1.groups_failed = 0) :
    (access_phase cfg inp r1).1.datasets_processed = r1.datasets_processed ∧
    (access_phase cfg inp r1).1.datasets_success = r1.datasets_success ∧
    (access_phase cfg inp r1).1.datasets_failed = r1.datasets_failed ∧
    (access_phase cfg inp r1).1.users_processed =
      (access_phase cfg inp r1).1.users_success +
      (access_phase cfg inp r1).1.users_failed ∧
    (access_phase cfg inp r1).1.groups_processed =
      (access_phase cfg inp r1).1.groups_success +
      (access_phase cfg inp r1).1.groups_failed := by
  cases hb : cfg.extract_access_control with
  | false => simp [access_phase, hb, hup, hus, huf, hgp, hgs, hgf]
  | true =>
    cases hu : inp.users with
    | error e => simp [access_phase, hb, hu, hup, hus, huf, hgp, hgs, hgf]
    | ok us =>
      have hcu := countP_ok_total cfg us
      cases hg : inp.groups with
      | error e =>
        simp [access_phase, hb, hu, hg, ingest_users_loop_eq, hup, hus, huf,
          hgp, hgs, hgf]
        omega
      | ok gs =>
        have hcg := countP_ok_total cfg gs
        simp [access_phase, hb, hu, hg, ingest_users_loop_eq,
          ingest_groups_loop_eq, hup, hus, huf, hgp, hgs, hgf]
        constructor <;> omega

/-- Counter conservation for the `try` block started from a fresh result. -/
theorem run_body_conserves (cfg : Config) (inp : ConnectorInput) :
    (run_body cfg inp {}).1.datasets_processed =
      (run_body cfg inp {}).1.datasets_success +
      (run_body cfg inp {}).1.datasets_failed ∧
    (run_body cfg inp {}).1.users_processed =
      (run_body cfg inp {}).1.users_success +
      (run_body cfg inp {}).1.users_failed ∧
    (run_body cfg inp {}).1.groups_processed =
      (run_body cfg inp {}).1.groups_success +
      (run_body cfg inp {}).1.groups_failed := by
  cases hc : inp.connect with
  | error e => simp [run_body, hc]
  | ok u =>
    obtain ⟨h1, h2, h3, h4, h5, h6, h7⟩ :=
      structural_phase_spec cfg inp {} rfl rfl rfl
    rcases hsp : structural_phase cfg inp ({} : IngestionResult) with ⟨r1, e1⟩
    rw [hsp] at h1 h2 h3 h4 h5 h6 h7
    cases e1 with
    | some e => simp [run_body, hc, hsp]; exact ⟨h7, by simp_all, by simp_all⟩
    | none =>
      obtain ⟨g1, g2, g3, g4, g5⟩ :=
        access_phase_spec cfg inp r1 (by simp_all) (by simp_all) (by simp_all)
          (by simp_all) (by simp_all) (by simp_all)
      simp [run_body, hc, hsp]
      exact ⟨by rw [g1, g2, g3]; exact h7, g4, g5⟩

/-- C3: whatever the collaborator outcomes, once
`extract_and_ingest_metadata` finishes its result has status `"completed"`
or `"failed"`, and for each of the three entity classes
`processed = success + failed`. -/
theorem C3_counter_conservation (cfg : Config) (inp : ConnectorInput) :
    ((extract_and_ingest_metadata cfg inp).result.status = "completed" ∨
     (extract_and_ingest_metadata cfg inp).result.status = "failed") ∧
    (extract_and_ingest_metadata cfg inp).result.datasets_processed =
      (extract_and_ingest_metadata cfg inp).result.datasets_success +
      (extract_and_ingest_metadata cfg inp).result.datasets_failed ∧
    (extract_and_ingest_metadata cfg inp).result.users_processed =
      (extract_and_ingest_metadata cfg inp).result.users_success +
      (extract_and_ingest_metadata cfg inp).result.users_failed ∧
    (extract_and_ingest_metadata cfg inp).result.groups_processed =
      (extract_and_ingest_metadata cfg inp).result.groups_success +
      (extract_and_ingest_metadata cfg inp).result.groups_failed := by
  obtain ⟨h1, h2, h3⟩ := run_body_conserves cfg inp
  rcases hrb : run_body cfg inp ({} : IngestionResult) with ⟨r, exc⟩
  rw [hrb] at h1 h2 h3
  cases exc with
  | none => simp [extract_and_ingest_metadata, hrb]; exact ⟨h1, h2, h3⟩
  | some e => simp [extract_and_ingest_metadata, hrb]; exact ⟨h1, h2, h3⟩

/-- C4: when connect and all enabled extractions succeed, every extracted
entity of every class is attempted and counted — a permanent per-entity
failure increments that class's failed counter and appends exactly one
error string identifying the entity, later entities are still processed
(success + failed counters cover the whole list), and the run still
finalizes with status `"completed"` without re-raising. -/
theorem C4_partial_failure_isolation (cfg : Config) (inp : ConnectorInput)
    (ds us gs : List Entity)
    (hs : cfg.extract_structural_metadata = true)
    (ha : cfg.extract_access_control = true)
    (hc : inp.connect = Except.ok ())
    (hd : inp.datasets = Except.ok ds)
    (hu : inp.users = Except.ok us)
    (hg : inp.groups = Except.ok gs) :
    (extract_and_ingest_metadata cfg inp).result.status = "completed" ∧
    (extract_and_ingest_metadata cfg inp).reraised = false ∧
    (extract_and_ingest_metadata cfg inp).result.datasets_processed = ds.length ∧
    (extract_and_ingest_metadata cfg inp).result.datasets_success =
      ds.countP (fun e => entity_ok cfg e) ∧
    (extract_and_ingest_metadata cfg inp).result.datasets_failed =
      ds.countP (fun e => !entity_ok cfg e) ∧
    (extract_and_ingest_metadata cfg inp).result.users_processed = us.length ∧
    (extract_and_ingest_metadata cfg inp).result.users_success =
      us.countP (fun e => entity_ok cfg e) ∧
    (extract_and_ingest_metadata cfg inp).result.users_failed =
      us.countP (fun e => !entity_ok cfg e) ∧
    (extract_and_ingest_metadata cfg inp).result.groups_processed = gs.length ∧
    (extract_and_ingest_metadata cfg inp).result.groups_success =
      gs.countP (fun e => entity_ok cfg e) ∧
    (extract_and_ingest_metadata cfg inp).result.groups_failed =
      gs.countP (fun e => !entity_ok cfg e) ∧
    (extract_and_ingest_metadata cfg inp).result.errors =
      class_errors cfg "Dataset " ds ++ class_errors cfg "User " us ++
        class_errors cfg "Group " gs ∧
    (extract_and_ingest_metadata cfg inp).result.errors.length =
      ds.countP (fun e => !entity_ok cfg e) + us.countP (fun e => !entity_ok cfg e) +
        gs.countP (fun e => !entity_ok cfg e) := by
  simp [extract_and_ingest_metadata, run_body, hc, structural_phase, hs, hd,
    access_phase, ha, hu, hg, ingest_datasets_loop_eq, ingest_users_loop_eq,
    ingest_groups_loop_eq, class_errors_length]
  omega

/-- C4 witness: the isolation theorem at a concrete run where dataset `T2`
permanently fails but `T1` and user `U1` are still ingested and the run
completes. -/
theorem C4_witness :
    (extract_and_ingest_metadata {} sample_input).result.status = "completed" ∧
    (extract_and_ingest_metadata {} sample_input).reraised = false ∧
    (extract_and_ingest_metadata {} sample_input).result.datasets_processed = 2 ∧
    (extract_and_ingest_metadata {} sample_input).result.datasets_success = 1 ∧
    (extract_and_ingest_metadata {} sample_input).result.datasets_failed = 1 ∧
    (extract_and_ingest_metadata {} sample_input).result.users_processed = 1 ∧
    (extract_and_ingest_metadata {} sample_input).result.users_success = 1 ∧
    (extract_and_ingest_metadata {} sample_input).result.users_failed = 0 ∧
    (extract_and_ingest_metadata {} sample_input).result.groups_processed = 0 ∧
    (extract_and_ingest_metadata {} sample_input).result.groups_success = 0 ∧
    (extract_and_ingest_metadata {} sample_input).result.groups_failed = 0 ∧
    (extract_and_ingest_metadata {} sample_input).result.errors =
      ["Dataset T2: rejected"] ∧
    (extract_and_ingest_metadata {} sample_input).result.errors.length = 1 :=
  C4_partial_failure_isolation {} sample_input
    [⟨"T1", fun _ => Except.ok ()⟩, ⟨"T2", fun _ => Except.error "rejected"⟩]
    [⟨"U1", fun _ => Except.ok ()⟩] [] rfl rfl rfl rfl rfl rfl

/-- C7: whenever the `try` block escapes with an exception (connect failure
or extraction failure — never per-entity ingestion, which is caught inside
the loops), the orchestrator finalizes the result with status `"failed"`,
assigns the duration, appends exactly one critical-error string, still
attempts the disconnect step, and re-raises to the caller. -/
theorem C7_extraction_failure_finalization (cfg : Config) (inp : ConnectorInput)
    (r : IngestionResult) (e : String)
    (h : run_body cfg inp {} = (r, some e)) :
    (extract_and_ingest_metadata cfg inp).result.status = "failed" ∧
    (extract_and_ingest_metadata cfg inp).result.duration_set = true ∧
    (extract_and_ingest_metadata cfg inp).result.errors =
      r.errors ++ ["Critical error: " ++ e] ∧
    (extract_and_ingest_metadata cfg inp).result.errors.length =
      r.errors.length + 1 ∧
    (extract_and_ingest_metadata cfg inp).disconnect_attempted = true ∧
    (extract_and_ingest_metadata cfg inp).reraised = true := by
  simp [extract_and_ingest_metadata, h]

/-- C7 witness: the finalization theorem at a concrete run whose
user-extraction query fails. -/
theorem C7_witness :
    (extract_and_ingest_metadata {} failing_input).result.status = "failed" ∧
    (extract_and_ingest_metadata {} failing_input).result.duration_set = true ∧
    (extract_and_ingest_metadata {} failing_input).result.errors =
      ["Critical error: ACCOUNT_USAGE query failed"] ∧
    (extract_and_ingest_metadata {} failing_input).result.errors.length = 1 ∧
    (extract_and_ingest_metadata {} failing_input).disconnect_attempted = true ∧
    (extract_and_ingest_metadata {} failing_input).reraised = true :=
  C7_extraction_failure_finalization {} failing_input {}
    "ACCOUNT_USAGE query failed" rfl

/-- Every state the warehouse connector can reach is either the initial
(disconnected) state or the fully connected state. -/
theorem reachable_inv (s : SnowflakeState) (hs : Reachable s) :
    s = initState ∨ s = ⟨some (), true⟩ := by
  induction hs with
  | init => exact Or.inl rfl
  | connectStep s' o hs' ih =>
    cases o with
    | failEarly e => simpa [connect] using ih
    | failTest e => exact Or.inr rfl
    | success => exact Or.inr rfl
  | disconnectStep s' b hs' ih =>
    rcases ih with h | h <;> subst h <;> simp [disconnect, initState]

/-- C10: from every reachable connector state, `disconnect` never raises
(a close failure is swallowed), always leaves the connector disconnected
(`connection = None`, `_connected = False`), is idempotent, and is a
harmless no-op when not connected. -/
theorem C10_disconnect_idempotent_safe (b1 b2 : Bool) (s : SnowflakeState)
    (hs : Reachable s) :
    (disconnect b1 s).2 = none ∧
    (disconnect b1 s).1 = initState ∧
    disconnect b2 (disconnect b1 s).1 = ((disconnect b1 s).1, none) ∧
    (s.connected = false → disconnect b1 s = (s, none)) := by
  rcases reachable_inv s hs with h | h <;> subst h <;>
    refine ⟨?_, ?_, ?_, ?_⟩ <;> simp [disconnect, initState]

/-- C10 witness: the disconnect theorem at the connected state (reached by
a successful `connect`), with the close call failing. -/
theorem C10_witness :
    (disconnect true ⟨some (), true⟩).2 = none ∧
    (disconnect true ⟨some (), true⟩).1 = initState ∧
    disconnect false (disconnect true ⟨some (), true⟩).1 =
      ((disconnect true ⟨some (), true⟩).1, none) ∧
    ((⟨some (), true⟩ : SnowflakeState).connected = false →
      disconnect true ⟨some (), true⟩ = (⟨some (), true⟩, none)) :=
  C10_disconnect_idempotent_safe true false ⟨some (), true⟩
    (Reachable.connectStep initState ConnectOutcome.success Reachable.init)
